import Mathlib

/-!
Verification of the duo-talk-director evaluation core.

The definitions below are a shallow embedding of the Python sources under
`src/duo_talk_director/`.  Python floats are modelled as rationals (ℚ),
Python strings as Lean `String` (code-point sequences, matching Python's
`len`/indexing semantics), fallible code as `Except`/`Option`.
Each definition's doc comment names the source function it embeds.
-/

/-- Embeds `DirectorStatus` from `interfaces.py`: evaluation status enum. -/
inductive DirectorStatus where
  | PASS
  | WARN
  | RETRY
  | MODIFY
  deriving DecidableEq, Repr

/-- Embeds `LLMEvaluationScore` from `interfaces.py`: 5-axis evaluation scores.
Floats are modelled as rationals. -/
structure LLMEvaluationScore where
  character_consistency : ℚ
  topic_novelty : ℚ
  relationship_quality : ℚ
  naturalness : ℚ
  concreteness : ℚ
  overall_score : ℚ
  issues : List String
  strengths : List String
  deriving DecidableEq, Repr

/-- Constructor for `LLMEvaluationScore` including its `__post_init__`
(`interfaces.py` lines 130-140): if `overall_score` is exactly `0.0` it is
recomputed as the fixed weighted average of the five axes. -/
def mkLLMEvaluationScore (cc tn rq na co ov : ℚ)
    (issues strengths : List String) : LLMEvaluationScore :=
  let ov' :=
    if ov = 0 then
      cc * (25/100) + tn * (20/100) + rq * (25/100) + na * (15/100) + co * (15/100)
    else ov
  { character_consistency := cc
    topic_novelty := tn
    relationship_quality := rq
    naturalness := na
    concreteness := co
    overall_score := ov'
    issues := issues
    strengths := strengths }

/-- Embeds `ThresholdConfig` from `config/thresholds.py`. -/
structure ThresholdConfig where
  retry_overall : ℚ
  retry_character : ℚ
  retry_relationship : ℚ
  warn_overall : ℚ
  deriving DecidableEq, Repr

/-- Default field values of `ThresholdConfig` (`thresholds.py` lines 22-25). -/
def defaultThresholdConfig : ThresholdConfig :=
  { retry_overall := 4/10
    retry_character := 3/10
    retry_relationship := 3/10
    warn_overall := 6/10 }

/-- Embeds `determine_status` from `config/thresholds.py` lines 28-59. -/
def determine_status (score : LLMEvaluationScore) (config : ThresholdConfig) :
    DirectorStatus :=
  if score.character_consistency < config.retry_character then .RETRY
  else if score.relationship_quality < config.retry_relationship then .RETRY
  else if score.overall_score < config.retry_overall then .RETRY
  else if score.overall_score < config.warn_overall then .WARN
  else .PASS

/-- The spec threshold example: Score(char=0.2, topic=0.9, rel=0.9, nat=0.9,
conc=0.9, overall=0.76). -/
def thresholdExampleScore : LLMEvaluationScore :=
  mkLLMEvaluationScore (2/10) (9/10) (9/10) (9/10) (9/10) (76/100) [] []

/-- A score whose overall is exactly the WARN floor 0.6 (axes at the floor
values so no individual floor fires). -/
def boundaryScore06 : LLMEvaluationScore :=
  mkLLMEvaluationScore (5/10) (5/10) (5/10) (5/10) (5/10) (6/10) [] []

/-- A score whose overall is exactly the RETRY floor 0.4. -/
def boundaryScore04 : LLMEvaluationScore :=
  mkLLMEvaluationScore (5/10) (5/10) (5/10) (5/10) (5/10) (4/10) [] []

/-- C1: against the default thresholds, `determine_status` returns RETRY when
`character_consistency < 0.3`; otherwise RETRY when
`relationship_quality < 0.3`; otherwise RETRY when `overall_score < 0.4`;
otherwise WARN when `overall_score < 0.6`; otherwise PASS.  Equality at a
floor falls in the better bucket (overall exactly 0.6 gives PASS, exactly
0.4 gives WARN), and an individual-metric floor violation forces RETRY even
with a high overall (char = 0.2, overall = 0.76 gives RETRY). -/
theorem determine_status_default_spec :
    (∀ s : LLMEvaluationScore,
      determine_status s defaultThresholdConfig =
        if s.character_consistency < 3/10 then DirectorStatus.RETRY
        else if s.relationship_quality < 3/10 then DirectorStatus.RETRY
        else if s.overall_score < 4/10 then DirectorStatus.RETRY
        else if s.overall_score < 6/10 then DirectorStatus.WARN
        else DirectorStatus.PASS)
    ∧ determine_status boundaryScore06 defaultThresholdConfig = DirectorStatus.PASS
    ∧ determine_status boundaryScore04 defaultThresholdConfig = DirectorStatus.WARN
    ∧ determine_status thresholdExampleScore defaultThresholdConfig = DirectorStatus.RETRY := by
  refine ⟨fun s => rfl, ?_, ?_, ?_⟩ <;>
    norm_num [determine_status, defaultThresholdConfig, mkLLMEvaluationScore,
      boundaryScore06, boundaryScore04, thresholdExampleScore]

/-- C9: an `LLMEvaluationScore` constructed with `overall_score = 0.0` gets
`overall_score` recomputed as the fixed weighted average
`0.25·char + 0.20·novelty + 0.25·rel + 0.15·nat + 0.15·conc`; a nonzero
supplied `overall_score` is left unchanged. -/
theorem mk_score_overall_spec :
    (∀ cc tn rq na co : ℚ, ∀ issues strengths : List String,
      (mkLLMEvaluationScore cc tn rq na co 0 issues strengths).overall_score =
        (25/100) * cc + (20/100) * tn + (25/100) * rq + (15/100) * na + (15/100) * co)
    ∧ (∀ cc tn rq na co ov : ℚ, ∀ issues strengths : List String, ov ≠ 0 →
      (mkLLMEvaluationScore cc tn rq na co ov issues strengths).overall_score = ov) := by
  constructor
  · intro cc tn rq na co issues strengths
    simp [mkLLMEvaluationScore]
    ring
  · intro cc tn rq na co ov issues strengths hov
    simp [mkLLMEvaluationScore, hov]

/-- Witness for C9: a supplied nonzero overall score (1/2) is preserved. -/
theorem mk_score_overall_spec_witness :
    (mkLLMEvaluationScore 1 1 1 1 1 (1/2) [] []).overall_score = 1/2 :=
  mk_score_overall_spec.2 1 1 1 1 1 (1/2) [] [] (by norm_num)

/-- Embeds `RAGSummary` from `interfaces.py`: lightweight RAG summary attached to an
evaluation.  `sources` (a Python dict `str -> int`) is modelled as an
association list. -/
structure RAGSummary where
  facts_count : Nat := 0
  sources : List (String × Nat) := []
  top_tags : List String := []
  used_for_attempts : List Nat := []
  deriving DecidableEq, Repr

/-- Embeds `DirectorEvaluation` from `interfaces.py` with its dataclass defaults.
The `details` dicts never reach this structure in the embedded code paths. -/
structure DirectorEvaluation where
  status : DirectorStatus
  reason : String
  suggestion : Option String := none
  action : String := "NOOP"
  next_instruction : Option String := none
  checks_passed : List String := []
  checks_failed : List String := []
  llm_score : Option LLMEvaluationScore := none
  rag_summary : Option RAGSummary := none
  deriving DecidableEq, Repr

/-- Python `" ".join(parts)`. -/
def joinSpace : List String → String
  | [] => ""
  | [x] => x
  | x :: xs => x ++ " " ++ joinSpace xs

/-- Python `", ".join(parts)`. -/
def joinComma : List String → String
  | [] => ""
  | [x] => x
  | x :: xs => x ++ ", " ++ joinComma xs

/-- The `status_priority` dict inside `DirectorHybrid._merge_results`
(`director_hybrid.py` lines 426-431). -/
def status_priority : DirectorStatus → Nat
  | .PASS => 0
  | .WARN => 1
  | .RETRY => 2
  | .MODIFY => 3

/-- Python `a or b` on two `Optional[str]` values: `a` unless `a` is falsy
(`None` or the empty string), else `b`. -/
def pyOrOptStr (a b : Option String) : Option String :=
  match a with
  | some s => if s = "" then b else some s
  | none => b

/-- Embeds `DirectorHybrid._merge_results` (`director_hybrid.py` lines 409-457). -/
def merge_results (static llm : DirectorEvaluation) : DirectorEvaluation :=
  let final_status :=
    if status_priority llm.status > status_priority static.status then llm.status
    else static.status
  let checks_passed := static.checks_passed ++ llm.checks_passed
  let checks_failed := static.checks_failed ++ llm.checks_failed
  let reason_parts :=
    (if static.reason ≠ "" then ["[Static] " ++ static.reason] else []) ++
    (if llm.reason ≠ "" then ["[LLM] " ++ llm.reason] else [])
  { status := final_status
    reason := joinSpace reason_parts
    suggestion := pyOrOptStr llm.suggestion static.suggestion
    checks_passed := checks_passed
    checks_failed := checks_failed
    llm_score := llm.llm_score }

/-- The stricter-status selection agrees with the maximum under the ordering
PASS < WARN < RETRY < MODIFY (helper for C2). -/
lemma stricter_status_is_max (a b : DirectorStatus) :
    status_priority (if status_priority b > status_priority a then b else a) =
        max (status_priority a) (status_priority b)
      ∧ ((if status_priority b > status_priority a then b else a) = a
        ∨ (if status_priority b > status_priority a then b else a) = b) := by
  cases a <;> cases b <;> simp [status_priority]

/-- C2: the hybrid merge takes the stricter (maximum) status under
PASS < WARN < RETRY < MODIFY, concatenates the static check lists before the
LLM ones, joins both nonempty reasons with bracketed provenance tags, and
prefers the LLM suggestion when present (else the static one). -/
theorem merge_results_spec (s l : DirectorEvaluation) :
    (status_priority (merge_results s l).status =
        max (status_priority s.status) (status_priority l.status)
      ∧ ((merge_results s l).status = s.status ∨ (merge_results s l).status = l.status))
    ∧ (merge_results s l).checks_passed = s.checks_passed ++ l.checks_passed
    ∧ (merge_results s l).checks_failed = s.checks_failed ++ l.checks_failed
    ∧ (s.reason ≠ "" → l.reason ≠ "" →
        (merge_results s l).reason =
          ("[Static] " ++ s.reason) ++ " " ++ ("[LLM] " ++ l.reason))
    ∧ (∀ t, l.suggestion = some t → t ≠ "" → (merge_results s l).suggestion = some t)
    ∧ (l.suggestion = none → (merge_results s l).suggestion = s.suggestion) := by
  refine ⟨⟨?_, ?_⟩, rfl, rfl, ?_, ?_, ?_⟩
  · exact (stricter_status_is_max s.status l.status).1
  · exact (stricter_status_is_max s.status l.status).2
  · intro hs hl
    simp [merge_results, hs, hl, joinSpace]
  · intro t ht hne
    simp [merge_results, pyOrOptStr, ht, hne]
  · intro hl
    simp [merge_results, pyOrOptStr, hl]

/-- A concrete static-side evaluation used by the C2 witness. -/
def mergeWitnessStatic : DirectorEvaluation :=
  { status := .WARN, reason := "static warning", suggestion := some "fix tone" }

/-- A concrete LLM-side evaluation used by the C2 witness. -/
def mergeWitnessLLM : DirectorEvaluation :=
  { status := .PASS, reason := "llm ok", suggestion := some "add detail" }

/-- Witness for C2: at concrete evaluations with nonempty reasons and an LLM
suggestion present, the merged reason carries both provenance tags and the
LLM suggestion wins. -/
theorem merge_results_spec_witness :
    (merge_results mergeWitnessStatic mergeWitnessLLM).reason =
        ("[Static] " ++ "static warning") ++ " " ++ ("[LLM] " ++ "llm ok")
      ∧ (merge_results mergeWitnessStatic mergeWitnessLLM).suggestion = some "add detail" :=
  ⟨(merge_results_spec mergeWitnessStatic mergeWitnessLLM).2.2.2.1
      (by decide) (by decide),
    (merge_results_spec mergeWitnessStatic mergeWitnessLLM).2.2.2.2.1
      "add detail" rfl (by decide)⟩

/-- Embeds `CheckResult` from `interfaces.py`.  The free-form `details` dict is
modelled by its only field read in `director_minimal.py`,
`details.get("suggestion")`. -/
structure CheckResult where
  name : String
  passed : Bool
  status : DirectorStatus := .PASS
  reason : String := ""
  suggestion : Option String := none
  deriving DecidableEq, Repr

/-- Embeds `DirectorMinimal.evaluate_response` (`director_minimal.py` lines 50-177),
written as a function of the six checker results it consumes, in the source's
fixed order: thought → tone → praise → context → setting → format.  Each
RETRY returns immediately; WARN reasons accumulate (the context check has no
WARN branch in the source). -/
def directorMinimalEvaluate
    (thought_result tone_result praise_result context_result
      setting_result format_result : CheckResult) : DirectorEvaluation :=
  if thought_result.status = .RETRY then
    { status := .RETRY, reason := thought_result.reason,
      suggestion := thought_result.suggestion,
      checks_passed := [], checks_failed := [thought_result.name] }
  else
    let warnings1 := if thought_result.status = .WARN then [thought_result.reason] else []
    let passed1 := [thought_result.name]
    if tone_result.status = .RETRY then
      { status := .RETRY, reason := tone_result.reason,
        suggestion := tone_result.suggestion,
        checks_passed := passed1, checks_failed := [tone_result.name] }
    else
      let warnings2 := warnings1 ++ (if tone_result.status = .WARN then [tone_result.reason] else [])
      let passed2 := passed1 ++ [tone_result.name]
      if praise_result.status = .RETRY then
        { status := .RETRY, reason := praise_result.reason,
          suggestion := praise_result.suggestion,
          checks_passed := passed2, checks_failed := [praise_result.name] }
      else
        let warnings3 := warnings2 ++ (if praise_result.status = .WARN then [praise_result.reason] else [])
        let passed3 := passed2 ++ [praise_result.name]
        if context_result.status = .RETRY then
          { status := .RETRY, reason := context_result.reason,
            suggestion := context_result.suggestion,
            checks_passed := passed3, checks_failed := [context_result.name] }
        else
          let passed4 := passed3 ++ [context_result.name]
          if setting_result.status = .RETRY then
            { status := .RETRY, reason := setting_result.reason,
              suggestion := setting_result.suggestion,
              checks_passed := passed4, checks_failed := [setting_result.name] }
          else
            let passed5 := passed4 ++ [setting_result.name]
            if format_result.status = .RETRY then
              { status := .RETRY, reason := format_result.reason,
                suggestion := format_result.suggestion,
                checks_passed := passed5, checks_failed := [format_result.name] }
            else
              let warnings6 := warnings3 ++ (if format_result.status = .WARN then [format_result.reason] else [])
              let passed6 := passed5 ++ [format_result.name]
              if warnings6 ≠ [] then
                { status := .WARN, reason := "警告: " ++ joinComma warnings6,
                  suggestion := some "次のターンで改善してください",
                  checks_passed := passed6, checks_failed := [] }
              else
                { status := .PASS, reason := "OK",
                  checks_passed := passed6, checks_failed := [] }

/-- C5: in the static suite the gating checks run in the fixed order
thought → tone → praise → context → setting → format; the first checker
returning RETRY is returned immediately, with `checks_passed` exactly the
names of the checks before it and `checks_failed` exactly its own name, so
later check names appear in neither list (each checker's name is the fixed
constant it carries in `checks/*.py`); when no check returns RETRY, all six
names appear in `checks_passed` in order and `checks_failed` is empty. -/
theorem minimal_gating_spec
    (tr tn pr cx se fo : CheckResult)
    (htr : tr.name = "thought_check") (htn : tn.name = "tone_check")
    (hpr : pr.name = "praise_check") (hcx : cx.name = "context_check")
    (hse : se.name = "setting_check") (hfo : fo.name = "format_check") :
    (tr.status = .RETRY →
      (directorMinimalEvaluate tr tn pr cx se fo).checks_passed = []
      ∧ (directorMinimalEvaluate tr tn pr cx se fo).checks_failed = ["thought_check"]
      ∧ (directorMinimalEvaluate tr tn pr cx se fo).status = .RETRY)
    ∧ (tr.status ≠ .RETRY → tn.status = .RETRY →
      (directorMinimalEvaluate tr tn pr cx se fo).checks_passed = ["thought_check"]
      ∧ (directorMinimalEvaluate tr tn pr cx se fo).checks_failed = ["tone_check"]
      ∧ (directorMinimalEvaluate tr tn pr cx se fo).status = .RETRY)
    ∧ (tr.status ≠ .RETRY → tn.status ≠ .RETRY → pr.status = .RETRY →
      (directorMinimalEvaluate tr tn pr cx se fo).checks_passed =
          ["thought_check", "tone_check"]
      ∧ (directorMinimalEvaluate tr tn pr cx se fo).checks_failed = ["praise_check"]
      ∧ (directorMinimalEvaluate tr tn pr cx se fo).status = .RETRY)
    ∧ (tr.status ≠ .RETRY → tn.status ≠ .RETRY → pr.status ≠ .RETRY →
        cx.status = .RETRY →
      (directorMinimalEvaluate tr tn pr cx se fo).checks_passed =
          ["thought_check", "tone_check", "praise_check"]
      ∧ (directorMinimalEvaluate tr tn pr cx se fo).checks_failed = ["context_check"]
      ∧ (directorMinimalEvaluate tr tn pr cx se fo).status = .RETRY)
    ∧ (tr.status ≠ .RETRY → tn.status ≠ .RETRY → pr.status ≠ .RETRY →
        cx.status ≠ .RETRY → se.status = .RETRY →
      (directorMinimalEvaluate tr tn pr cx se fo).checks_passed =
          ["thought_check", "tone_check", "praise_check", "context_check"]
      ∧ (directorMinimalEvaluate tr tn pr cx se fo).checks_failed = ["setting_check"]
      ∧ (directorMinimalEvaluate tr tn pr cx se fo).status = .RETRY)
    ∧ (tr.status ≠ .RETRY → tn.status ≠ .RETRY → pr.status ≠ .RETRY →
        cx.status ≠ .RETRY → se.status ≠ .RETRY → fo.status = .RETRY →
      (directorMinimalEvaluate tr tn pr cx se fo).checks_passed =
          ["thought_check", "tone_check", "praise_check", "context_check",
            "setting_check"]
      ∧ (directorMinimalEvaluate tr tn pr cx se fo).checks_failed = ["format_check"]
      ∧ (directorMinimalEvaluate tr tn pr cx se fo).status = .RETRY)
    ∧ (tr.status ≠ .RETRY → tn.status ≠ .RETRY → pr.status ≠ .RETRY →
        cx.status ≠ .RETRY → se.status ≠ .RETRY → fo.status ≠ .RETRY →
      (directorMinimalEvaluate tr tn pr cx se fo).checks_passed =
          ["thought_check", "tone_check", "praise_check", "context_check",
            "setting_check", "format_check"]
      ∧ (directorMinimalEvaluate tr tn pr cx se fo).checks_failed = []) := by
  refine ⟨?_, ?_, ?_, ?_, ?_, ?_, ?_⟩
  · intro h1
    simp [directorMinimalEvaluate, h1, htr]
  · intro h1 h2
    simp [directorMinimalEvaluate, h1, h2, htr, htn]
  · intro h1 h2 h3
    simp [directorMinimalEvaluate, h1, h2, h3, htr, htn, hpr]
  · intro h1 h2 h3 h4
    simp [directorMinimalEvaluate, h1, h2, h3, h4, htr, htn, hpr, hcx]
  · intro h1 h2 h3 h4 h5
    simp [directorMinimalEvaluate, h1, h2, h3, h4, h5, htr, htn, hpr, hcx, hse]
  · intro h1 h2 h3 h4 h5 h6
    simp [directorMinimalEvaluate, h1, h2, h3, h4, h5, h6, htr, htn, hpr, hcx,
      hse, hfo]
  · intro h1 h2 h3 h4 h5 h6
    by_cases hw :
        ((if tr.status = .WARN then [tr.reason] else []) ++
          (if tn.status = .WARN then [tn.reason] else []) ++
          (if pr.status = .WARN then [pr.reason] else []) ++
          (if fo.status = .WARN then [fo.reason] else [])) = [] <;>
      simp_all [directorMinimalEvaluate]

/-- Witness for C5: when the thought-structure check fails, no other check
name appears in either list. -/
theorem minimal_gating_spec_witness :
    (directorMinimalEvaluate
        { name := "thought_check", passed := false, status := .RETRY,
          reason := "Thoughtが見つかりません" }
        { name := "tone_check", passed := true }
        { name := "praise_check", passed := true }
        { name := "context_check", passed := true }
        { name := "setting_check", passed := true }
        { name := "format_check", passed := true }).checks_passed = []
    ∧ (directorMinimalEvaluate
        { name := "thought_check", passed := false, status := .RETRY,
          reason := "Thoughtが見つかりません" }
        { name := "tone_check", passed := true }
        { name := "praise_check", passed := true }
        { name := "context_check", passed := true }
        { name := "setting_check", passed := true }
        { name := "format_check", passed := true }).checks_failed =
          ["thought_check"] := by
  have h := minimal_gating_spec
    { name := "thought_check", passed := false, status := .RETRY,
      reason := "Thoughtが見つかりません" }
    { name := "tone_check", passed := true }
    { name := "praise_check", passed := true }
    { name := "context_check", passed := true }
    { name := "setting_check", passed := true }
    { name := "format_check", passed := true }
    rfl rfl rfl rfl rfl rfl
  exact ⟨(h.1 rfl).1, (h.1 rfl).2.1⟩

/-- Characters stripped by Python `str.strip()` / matched by `\s` (the
whitespace actually reachable in this codebase's inputs: ASCII whitespace
plus the ideographic space). -/
def isPySpace (c : Char) : Bool :=
  c = ' ' || c = '\t' || c = '\n' || c = '\r' || c = '\x0b' || c = '\x0c' ||
    c = '　'

/-- Python `str.strip()` on a code-point list. -/
def pyStripL (s : List Char) : List Char :=
  ((s.dropWhile isPySpace).reverse.dropWhile isPySpace).reverse

/-- Python `str.strip()`. -/
def pyStrip (s : String) : String := String.mk (pyStripL s.data)

/-- Python `response.split("\n")` on a code-point list. -/
def splitOnNl : List Char → List (List Char)
  | [] => [[]]
  | c :: rest =>
    let r := splitOnNl rest
    if c = '\n' then [] :: r
    else
      match r with
      | [] => [[c]]
      | h :: t => (c :: h) :: t

/-- The line count of `FormatChecker.check` (`format_check.py` line 34-35):
`len([line.strip() for line in response.split("\n") if line.strip()])`. -/
def non_blank_line_count (response : String) : Nat :=
  (((splitOnNl response.data).map pyStripL).filter (fun l => !l.isEmpty)).length

/-- Embeds `FormatChecker.check` (`format_check.py` lines 22-67) with the
constructor's threshold parameters (`__init__` defaults 8 and 6). -/
def format_check (retry_line_threshold warn_line_threshold : Nat)
    (response : String) : CheckResult :=
  let line_count := non_blank_line_count response
  if line_count ≥ retry_line_threshold then
    { name := "format_check", passed := false, status := .RETRY,
      reason := "発言が複数行に分かれすぎています（" ++ toString line_count ++ "行）",
      suggestion := some "1つの連続した発言として、簡潔に出力してください。" }
  else if line_count ≥ warn_line_threshold then
    { name := "format_check", passed := true, status := .WARN,
      reason := "発言が複数行です（" ++ toString line_count ++ "行）",
      suggestion := some "1つの連続した発言として、簡潔に出力してください。" }
  else
    { name := "format_check", passed := true, status := .PASS, reason := "OK" }

/-- C7: the format check counts non-blank lines after stripping; a count at
or above the upper threshold (default 8) yields RETRY, at or above the lower
threshold (default 6) yields WARN, below yields PASS; with the defaults,
exactly 6 non-blank lines gives WARN, exactly 8 gives RETRY, exactly 5 gives
PASS. -/
theorem format_check_spec :
    (∀ response : String,
      (format_check 8 6 response).status =
        if non_blank_line_count response ≥ 8 then DirectorStatus.RETRY
        else if non_blank_line_count response ≥ 6 then DirectorStatus.WARN
        else DirectorStatus.PASS)
    ∧ non_blank_line_count "a\nb\nc\nd\ne\nf" = 6
    ∧ (format_check 8 6 "a\nb\nc\nd\ne\nf").status = DirectorStatus.WARN
    ∧ non_blank_line_count "a\nb\nc\nd\ne\nf\ng\nh" = 8
    ∧ (format_check 8 6 "a\nb\nc\nd\ne\nf\ng\nh").status = DirectorStatus.RETRY
    ∧ non_blank_line_count "a\nb\nc\nd\ne" = 5
    ∧ (format_check 8 6 "a\nb\nc\nd\ne").status = DirectorStatus.PASS := by
  refine ⟨?_, ?_, ?_, ?_, ?_, ?_, ?_⟩
  · intro response
    by_cases h8 : non_blank_line_count response ≥ 8
    · simp [format_check, h8]
    · by_cases h6 : non_blank_line_count response ≥ 6 <;>
        simp [format_check, h8, h6]
  all_goals decide

/-- Infix (substring) test on code-point lists, Python's `needle in hay`. -/
def containsSub (needle : List Char) : List Char → Bool
  | [] => needle.isEmpty
  | c :: t => needle.isPrefixOf (c :: t) || containsSub needle t

/-- Python `pat in hay` on strings. -/
def strContains (hay pat : String) : Bool := containsSub pat.data hay.data

/-- A Python value as produced by `json.loads` / stored in score fields. -/
inductive PyVal where
  | pnum (q : ℚ)
  | pstr (s : String)
  | pbool (b : Bool)
  | pnull
  | plist (xs : List PyVal)
  | pdict (entries : List (String × PyVal))

/-- Python `data.get(key, default)` on a dict modelled as an association
list (JSON object keys are unique, so first-match lookup is faithful). -/
def pyGet (entries : List (String × PyVal)) (key : String) (dflt : PyVal) :
    PyVal :=
  match entries.find? (fun p => p.1 == key) with
  | some p => p.2
  | none => dflt

/-- Python `float(value)` as used by `LLMEvaluator._clamp`: numbers pass
through, booleans coerce to 1/0, strings go through the abstract
float-parsing function `strFloat` (Python's `float(str)`, a library
routine), and everything else raises (`none`). -/
def pyFloat (strFloat : String → Option ℚ) : PyVal → Option ℚ
  | .pnum q => some q
  | .pbool b => some (if b then 1 else 0)
  | .pstr s => strFloat s
  | _ => none

/-- Embeds `LLMEvaluator._clamp` (`llm/evaluator.py` lines 133-145):
`max(0.0, min(1.0, float(value)))`, with `TypeError`/`ValueError` from
`float()` recovered to 0.5. -/
def clampVal (strFloat : String → Option ℚ) (v : PyVal) : ℚ :=
  match pyFloat strFloat v with
  | some q => max 0 (min 1 q)
  | none => 1/2

/-- The string elements of a parsed `issues`/`strengths` JSON list
(modelling note: the Python code stores `data.get("issues", [])` verbatim;
only the string entries are observable through `LLMEvaluationScore.issues`'s
declared `list[str]` type, so non-list and non-string values are dropped). -/
def pyStrings : PyVal → List String
  | .plist xs =>
    xs.filterMap (fun v => match v with | .pstr s => some s | _ => none)
  | _ => []

/-- The quoted key searched for by the first regex in
`LLMEvaluator._parse_response`. -/
def jsonKeyChars : List Char := '"' :: ("character_consistency".data ++ ['"'])

/-- The regex `\{[^{}]*"character_consistency"[^{}]*\}` of
`_parse_response` (`evaluator.py` lines 95-99): leftmost brace-delimited,
brace-free span containing the quoted key. -/
def scanJsonWithKey : List Char → Option (List Char)
  | [] => none
  | c :: rest =>
    if c = '{' then
      let body := rest.takeWhile (fun ch => ch != '{' && ch != '}')
      match rest.dropWhile (fun ch => ch != '{' && ch != '}') with
      | '}' :: _ =>
        if containsSub jsonKeyChars body then some ('{' :: (body ++ ['}']))
        else scanJsonWithKey rest
      | _ => scanJsonWithKey rest
    else scanJsonWithKey rest

/-- The permissive fallback regex `\{[^}]+\}` of `_parse_response`
(`evaluator.py` line 103): leftmost brace-delimited span with a nonempty
`}`-free body. -/
def scanJsonAny : List Char → Option (List Char)
  | [] => none
  | c :: rest =>
    if c = '{' then
      let body := rest.takeWhile (fun ch => ch != '}')
      match rest.dropWhile (fun ch => ch != '}') with
      | '}' :: _ =>
        if body.isEmpty then scanJsonAny rest
        else some ('{' :: (body ++ ['}']))
      | _ => scanJsonAny rest
    else scanJsonAny rest

/-- The JSON-candidate extraction of `_parse_response`: the key-bearing
regex first, then the permissive one. -/
def extractJsonText (s : String) : Option String :=
  match scanJsonWithKey s.data with
  | some m => some (String.mk m)
  | none =>
    match scanJsonAny s.data with
    | some m => some (String.mk m)
    | none => none

/-- The all-0.5 default fallback of `_parse_response` (`evaluator.py` lines
124-131); `overall_score` 0 is recomputed to 0.5 by `__post_init__`. -/
def jsonFallbackScore : LLMEvaluationScore :=
  mkLLMEvaluationScore (1/2) (1/2) (1/2) (1/2) (1/2) 0
    ["JSON parse error: could not extract valid JSON"] []

/-- The score built by `_parse_response` from a matched JSON candidate
(`evaluator.py` lines 105-121): parse it with `loads` (the library routine
`json.loads`; a raised `JSONDecodeError` is `.error ()`), read each field
with its 0.5 (or, for `overall_score`, 0.0) default, and clamp.  A
successful parse of a brace-delimited candidate is an object (`.pdict`);
any other outcome lands in the same fallback as a parse error. -/
def parse_json_score (loads : String → Except Unit PyVal)
    (strFloat : String → Option ℚ) (json_text : String) :
    LLMEvaluationScore :=
  match loads json_text with
  | .ok (.pdict data) =>
    mkLLMEvaluationScore
      (clampVal strFloat (pyGet data "character_consistency" (.pnum (1/2))))
      (clampVal strFloat (pyGet data "topic_novelty" (.pnum (1/2))))
      (clampVal strFloat (pyGet data "relationship_quality" (.pnum (1/2))))
      (clampVal strFloat (pyGet data "naturalness" (.pnum (1/2))))
      (clampVal strFloat (pyGet data "concreteness" (.pnum (1/2))))
      (clampVal strFloat (pyGet data "overall_score" (.pnum 0)))
      (pyStrings (pyGet data "issues" (.plist [])))
      (pyStrings (pyGet data "strengths" (.plist [])))
  | _ => jsonFallbackScore

/-- Embeds `LLMEvaluator._parse_response` (`evaluator.py` lines 84-131). -/
def parse_response (loads : String → Except Unit PyVal)
    (strFloat : String → Option ℚ) (response_text : String) :
    LLMEvaluationScore :=
  match extractJsonText response_text with
  | some json_text => parse_json_score loads strFloat json_text
  | none => jsonFallbackScore

/-- Embeds `LLMEvaluator.evaluate_single_turn` (`evaluator.py` lines 45-82).
`genResult` is the outcome of the single `llm_client.generate` call:
`.ok raw` its return value, `.error e` the message of a raised exception,
which is recovered to the all-0.5 score with a diagnostic issue. -/
def evaluate_single_turn (loads : String → Except Unit PyVal)
    (strFloat : String → Option ℚ) (genResult : Except String String) :
    LLMEvaluationScore :=
  match genResult with
  | .ok raw => parse_response loads strFloat raw
  | .error e =>
    mkLLMEvaluationScore (1/2) (1/2) (1/2) (1/2) (1/2) 0
      ["LLM evaluation error: " ++ e] []

/-- Python `"; ".join(parts)`. -/
def joinSemi : List String → String
  | [] => ""
  | [x] => x
  | x :: xs => x ++ "; " ++ joinSemi xs

/-- Embeds `build_reason` from `config/thresholds.py` lines 62-100.  `fmt` renders
a float with Python's `"%.2f"` formatting (presentation only). -/
def build_reason (fmt : ℚ → String) (score : LLMEvaluationScore)
    (status : DirectorStatus) : String :=
  let parts1 := ["LLM evaluation: overall=" ++ fmt score.overall_score]
  let metrics :=
    ["char=" ++ fmt score.character_consistency,
      "novelty=" ++ fmt score.topic_novelty,
      "rel=" ++ fmt score.relationship_quality,
      "nat=" ++ fmt score.naturalness,
      "conc=" ++ fmt score.concreteness]
  let parts2 := parts1 ++ ["(" ++ joinComma metrics ++ ")"]
  let parts3 :=
    if score.issues ≠ [] then
      parts2 ++ ["Issues: " ++ joinSemi (score.issues.take 3)]
    else parts2
  let tag :=
    if status = .RETRY then "[RETRY]"
    else if status = .WARN then "[WARN]" else "[PASS]"
  joinSpace (tag :: parts3)

/-- Embeds `DirectorLLM._build_suggestion` (`director_llm.py` lines 136-174). -/
def build_suggestion (score : LLMEvaluationScore) (status : DirectorStatus) :
    Option String :=
  if status = .PASS then none
  else
    let suggestions :=
      (if score.character_consistency < 1/2 then ["キャラクターの一貫性を改善（口調、一人称）"] else []) ++
      (if score.topic_novelty < 1/2 then ["話題の繰り返しを避ける"] else []) ++
      (if score.relationship_quality < 1/2 then ["姉妹らしい掛け合いを追加"] else []) ++
      (if score.naturalness < 1/2 then ["応答の自然さを改善"] else []) ++
      (if score.concreteness < 1/2 then ["具体的な情報を追加"] else [])
    let suggestions := suggestions ++ score.issues.take 2
    if suggestions ≠ [] then some (joinSemi (suggestions.take 3)) else none

/-- The success path of `DirectorLLM.evaluate_response` (`director_llm.py`
lines 82-99): score → threshold status → reason → suggestion → evaluation. -/
def directorLLMSuccess (fmt : ℚ → String) (config : ThresholdConfig)
    (score : LLMEvaluationScore) : DirectorEvaluation :=
  let status := determine_status score config
  { status := status
    reason := build_reason fmt score status
    suggestion := build_suggestion score status
    checks_passed := if status ≠ .RETRY then ["llm_evaluation"] else []
    checks_failed := if status = .RETRY then ["llm_evaluation"] else [] }

/-- Embeds `DirectorLLM.evaluate_response` (`director_llm.py` lines 59-109) as a
function of the try-block outcome: `.ok score` when the scorer pipeline
produced a score, `.error e` when something inside the try block raised —
the except branch converts that to a WARN verdict instead of propagating. -/
def directorLLMEvaluateWith (fmt : ℚ → String) (config : ThresholdConfig)
    (scorer : Except String LLMEvaluationScore) : DirectorEvaluation :=
  match scorer with
  | .ok score => directorLLMSuccess fmt config score
  | .error e =>
    { status := .WARN
      reason := "[WARN] LLM evaluation error: " ++ e
      suggestion := some "LLM評価が失敗しました。手動確認を推奨します。"
      checks_passed := []
      checks_failed := ["llm_evaluation"] }

/-- Embeds `DirectorLLM.evaluate_response` with the scorer instantiated to the real
`evaluate_single_turn`, which is total, so the try block cannot raise. -/
def director_llm_evaluate_response (fmt : ℚ → String)
    (config : ThresholdConfig) (loads : String → Except Unit PyVal)
    (strFloat : String → Option ℚ) (genResult : Except String String) :
    DirectorEvaluation :=
  directorLLMEvaluateWith fmt config
    (.ok (evaluate_single_turn loads strFloat genResult))

/-- All eleven numeric fields of a score lie in [0,1]. -/
def scoreInRange (s : LLMEvaluationScore) : Prop :=
  0 ≤ s.character_consistency ∧ s.character_consistency ≤ 1
  ∧ 0 ≤ s.topic_novelty ∧ s.topic_novelty ≤ 1
  ∧ 0 ≤ s.relationship_quality ∧ s.relationship_quality ≤ 1
  ∧ 0 ≤ s.naturalness ∧ s.naturalness ≤ 1
  ∧ 0 ≤ s.concreteness ∧ s.concreteness ≤ 1
  ∧ 0 ≤ s.overall_score ∧ s.overall_score ≤ 1

/-- Helper for C8: `clampVal` always lands in [0,1]. -/
lemma clampVal_mem (strFloat : String → Option ℚ) (v : PyVal) :
    0 ≤ clampVal strFloat v ∧ clampVal strFloat v ≤ 1 := by
  unfold clampVal
  cases pyFloat strFloat v with
  | none => norm_num
  | some q =>
    constructor
    · exact le_max_left 0 _
    · exact max_le (by norm_num) (min_le_left 1 q)

/-- Helper for C8: `mkLLMEvaluationScore` preserves [0,1] bounds. -/
lemma mkScore_inRange (cc tn rq na co ov : ℚ) (issues strengths : List String)
    (hcc : 0 ≤ cc ∧ cc ≤ 1) (htn : 0 ≤ tn ∧ tn ≤ 1) (hrq : 0 ≤ rq ∧ rq ≤ 1)
    (hna : 0 ≤ na ∧ na ≤ 1) (hco : 0 ≤ co ∧ co ≤ 1) (hov : 0 ≤ ov ∧ ov ≤ 1) :
    scoreInRange (mkLLMEvaluationScore cc tn rq na co ov issues strengths) := by
  obtain ⟨h1, h2⟩ := hcc
  obtain ⟨h3, h4⟩ := htn
  obtain ⟨h5, h6⟩ := hrq
  obtain ⟨h7, h8⟩ := hna
  obtain ⟨h9, h10⟩ := hco
  obtain ⟨h11, h12⟩ := hov
  unfold scoreInRange mkLLMEvaluationScore
  by_cases hz : ov = 0 <;>
    simp only [hz, if_true, if_false, ite_true, ite_false] <;>
    refine ⟨h1, h2, h3, h4, h5, h6, h7, h8, h9, h10, ?_, ?_⟩ <;>
    nlinarith

/-- C8: the LLM scorer never raises past its boundary: for every client
behaviour (`genResult`) and every behaviour of the JSON library (`loads`)
and of float-parsing on strings (`strFloat`), `evaluate_single_turn`
returns a well-formed score with every axis in [0,1]; a generate failure
and a total failure to find or parse a JSON object each yield the all-0.5
score with a diagnostic issue string; every parsed numeric field is clamped
to [0,1] and a non-numeric field coerces to the 0.5 default; and a
scorer-level exception in the LLM-only strategy becomes a WARN verdict. -/
theorem llm_evaluator_robustness_spec (loads : String → Except Unit PyVal)
    (strFloat : String → Option ℚ) (genResult : Except String String) :
    scoreInRange (evaluate_single_turn loads strFloat genResult)
    ∧ (∀ e, genResult = .error e →
        evaluate_single_turn loads strFloat genResult =
          mkLLMEvaluationScore (1/2) (1/2) (1/2) (1/2) (1/2) 0
            ["LLM evaluation error: " ++ e] [])
    ∧ (∀ raw, genResult = .ok raw → extractJsonText raw = none →
        evaluate_single_turn loads strFloat genResult = jsonFallbackScore)
    ∧ (∀ raw j, genResult = .ok raw → extractJsonText raw = some j →
        loads j = .error () →
        evaluate_single_turn loads strFloat genResult = jsonFallbackScore)
    ∧ (∀ q : ℚ, clampVal strFloat (.pnum q) = max 0 (min 1 q))
    ∧ (∀ v, pyFloat strFloat v = none → clampVal strFloat v = 1/2)
    ∧ (∀ fmt config e,
        (directorLLMEvaluateWith fmt config (.error e)).status =
          DirectorStatus.WARN) := by
  have hfallback : scoreInRange jsonFallbackScore := by
    unfold jsonFallbackScore
    apply mkScore_inRange <;> norm_num
  refine ⟨?_, ?_, ?_, ?_, ?_, ?_, ?_⟩
  · cases genResult with
    | error e =>
      show scoreInRange (mkLLMEvaluationScore (1/2) (1/2) (1/2) (1/2) (1/2) 0
        ["LLM evaluation error: " ++ e] [])
      apply mkScore_inRange <;> norm_num
    | ok raw =>
      show scoreInRange (parse_response loads strFloat raw)
      unfold parse_response
      cases hex : extractJsonText raw with
      | none => exact hfallback
      | some j =>
        show scoreInRange (parse_json_score loads strFloat j)
        unfold parse_json_score
        cases hld : loads j with
        | error u => exact hfallback
        | ok v =>
          cases v with
          | pdict data =>
            apply mkScore_inRange <;> exact clampVal_mem strFloat _
          | pnum q => exact hfallback
          | pstr s => exact hfallback
          | pbool b => exact hfallback
          | pnull => exact hfallback
          | plist xs => exact hfallback
  · intro e he
    subst he
    rfl
  · intro raw hraw hex
    subst hraw
    show parse_response loads strFloat raw = jsonFallbackScore
    unfold parse_response
    rw [hex]
  · intro raw j hraw hex hld
    subst hraw
    show parse_response loads strFloat raw = jsonFallbackScore
    unfold parse_response
    rw [hex]
    show parse_json_score loads strFloat j = jsonFallbackScore
    unfold parse_json_score
    rw [hld]

  · intro q
    rfl
  · intro v hv
    unfold clampVal
    rw [hv]
  · intro fmt config e
    rfl

/-- Witness for C8: with a client whose generate call raises "boom", the
scorer returns the all-0.5 fallback with the diagnostic issue. -/
theorem llm_evaluator_robustness_spec_witness :
    evaluate_single_turn (fun _ => .error ()) (fun _ => none)
        (.error "boom") =
      mkLLMEvaluationScore (1/2) (1/2) (1/2) (1/2) (1/2) 0
        ["LLM evaluation error: " ++ "boom"] [] :=
  (llm_evaluator_robustness_spec (fun _ => .error ()) (fun _ => none)
    (.error "boom")).2.1 "boom" rfl

/-- Embeds `DirectorHybrid._attach_rag_summary` (`director_hybrid.py` lines
198-234): with no RAG log entry (RAG disabled, `_search_rag` returned
`None`) the evaluation is returned unchanged; otherwise only the
`rag_summary` field is filled in (the summary value built from
`_rag_attempts` is abstracted as `s`). -/
def attach_rag_summary (evaluation : DirectorEvaluation)
    (rag_summary : Option RAGSummary) : DirectorEvaluation :=
  match rag_summary with
  | none => evaluation
  | some s => { evaluation with rag_summary := some s }

/-- Embeds `DirectorHybrid.evaluate_response` (`director_hybrid.py` lines 68-127)
as a function of the static suite's verdict and of the single
`llm_client.generate` outcome.  The second component counts the
`generate` invocations performed during the call: the static checks and the
RAG search never touch the LLM client, and the LLM path calls `generate`
exactly once inside `evaluate_single_turn`.  The source's except-branch
around the LLM call (lines 114-123) has no counterpart here because
`DirectorLLM.evaluate_response` catches every exception itself
(`director_llm.py` lines 101-109) and so never raises. -/
def hybrid_evaluate_response (fmt : ℚ → String) (config : ThresholdConfig)
    (loads : String → Except Unit PyVal) (strFloat : String → Option ℚ)
    (skip_llm_on_static_retry : Bool) (rag_log : Option RAGSummary)
    (static_result : DirectorEvaluation) (genResult : Except String String) :
    DirectorEvaluation × Nat :=
  if static_result.status = DirectorStatus.RETRY ∧ skip_llm_on_static_retry then
    (attach_rag_summary static_result rag_log, 0)
  else
    let llm_result :=
      director_llm_evaluate_response fmt config loads strFloat genResult
    (attach_rag_summary (merge_results static_result llm_result) rag_log, 1)

/-- C3: when the static verdict is RETRY and short-circuiting is enabled
(`skip_llm_on_static_retry = true`, the default), the hybrid evaluation
returns the static verdict immediately (only its `rag_summary` field can
differ, and with RAG disabled not even that) and the LLM client's
`generate` is invoked zero times during the call. -/
theorem hybrid_short_circuit_spec (fmt : ℚ → String)
    (config : ThresholdConfig) (loads : String → Except Unit PyVal)
    (strFloat : String → Option ℚ) (rag_log : Option RAGSummary)
    (static_result : DirectorEvaluation) (genResult : Except String String)
    (hretry : static_result.status = DirectorStatus.RETRY) :
    hybrid_evaluate_response fmt config loads strFloat true rag_log
        static_result genResult =
      (attach_rag_summary static_result rag_log, 0)
    ∧ (hybrid_evaluate_response fmt config loads strFloat true rag_log
        static_result genResult).2 = 0
    ∧ (attach_rag_summary static_result rag_log).status = static_result.status
    ∧ (attach_rag_summary static_result rag_log).reason = static_result.reason
    ∧ (attach_rag_summary static_result rag_log).suggestion =
        static_result.suggestion
    ∧ (attach_rag_summary static_result rag_log).checks_passed =
        static_result.checks_passed
    ∧ (attach_rag_summary static_result rag_log).checks_failed =
        static_result.checks_failed
    ∧ (rag_log = none →
        hybrid_evaluate_response fmt config loads strFloat true rag_log
            static_result genResult = (static_result, 0)) := by
  have hmain :
      hybrid_evaluate_response fmt config loads strFloat true rag_log
          static_result genResult =
        (attach_rag_summary static_result rag_log, 0) := by
    simp [hybrid_evaluate_response, hretry]
  refine ⟨hmain, by rw [hmain], ?_, ?_, ?_, ?_, ?_, ?_⟩
  · cases rag_log <;> simp [attach_rag_summary]
  · cases rag_log <;> simp [attach_rag_summary]
  · cases rag_log <;> simp [attach_rag_summary]
  · cases rag_log <;> simp [attach_rag_summary]
  · cases rag_log <;> simp [attach_rag_summary]
  · intro hnone
    subst hnone
    rw [hmain]
    rfl

/-- Witness for C3: a concrete static-RETRY evaluation with RAG disabled is
returned verbatim with zero generate calls. -/
theorem hybrid_short_circuit_spec_witness :
    hybrid_evaluate_response (fun _ => "") defaultThresholdConfig
        (fun _ => .error ()) (fun _ => none) true none
        { status := .RETRY, reason := "NG" } (.ok "{}") =
      ({ status := .RETRY, reason := "NG" }, 0) :=
  (hybrid_short_circuit_spec (fun _ => "") defaultThresholdConfig
    (fun _ => .error ()) (fun _ => none) none
    { status := .RETRY, reason := "NG" } (.ok "{}") rfl).2.2.2.2.2.2.2 rfl

/-- Embeds `EmotionType` from `state/models.py`. -/
inductive EmotionType where
  | JOY
  | WORRY
  | ANNOYANCE
  | AFFECTION
  | NEUTRAL
  deriving DecidableEq, Repr

/-- Embeds `EMOTION_SIGNALS[JOY]` from `state/signals.py` lines 13-26. -/
def joySignals : List String :=
  ["嬉しい", "楽しい", "ワクワク", "最高", "素敵", "よかった", "面白い",
    "幸せ", "いいな", "好き", "笑顔", "やった"]

/-- Embeds `EMOTION_SIGNALS[WORRY]` from `state/signals.py` lines 27-36. -/
def worrySignals : List String :=
  ["心配", "不安", "大丈夫かな", "困る", "どうしよう", "気になる", "怖い",
    "不安定"]

/-- Embeds `EMOTION_SIGNALS[ANNOYANCE]` from `state/signals.py` lines 37-48. -/
def annoyanceSignals : List String :=
  ["また始まった", "いつも", "面倒", "うんざり", "やれやれ", "はぁ",
    "ため息", "仕方ない", "困った", "無神経"]

/-- Embeds `EMOTION_SIGNALS[AFFECTION]` from `state/signals.py` lines 49-57. -/
def affectionSignals : List String :=
  ["可愛い", "大切", "守りたい", "愛おしい", "妹思い", "姉思い", "仲良し"]

/-- The dict `EMOTION_SIGNALS` in Python iteration order. -/
def emotionSignals : List (EmotionType × List String) :=
  [(.JOY, joySignals), (.WORRY, worrySignals), (.ANNOYANCE, annoyanceSignals),
    (.AFFECTION, affectionSignals)]

/-- Embeds `StateExtractor.EMOTION_PRIORITY` (`state/extractor.py` lines 32-38). -/
def emotionPriority : EmotionType → Nat
  | .AFFECTION => 4
  | .JOY => 3
  | .WORRY => 2
  | .ANNOYANCE => 1
  | .NEUTRAL => 0

/-- Embeds `NEGATION_PREFIX_TOKENS` (`state/signals.py` lines 126-129): empty by
design. -/
def negPreTokens : List String := []

/-- Embeds `NEGATION_SUFFIX_TOKENS` (`state/signals.py` lines 132-137). -/
def negSufTokens : List String := ["くない", "じゃない", "でもない", "ではない"]

/-- Python `hay.find(needle)` on code-point lists: index of the first
occurrence, `none` when absent. -/
def findSub : List Char → List Char → Option Nat
  | [], needle => if needle.isEmpty then some 0 else none
  | c :: t, needle =>
    if needle.isPrefixOf (c :: t) then some 0
    else (findSub t needle).map (· + 1)

/-- Embeds `_is_negated` (`state/signals.py` lines 161-197) with
`NEGATION_WINDOW = 6`. -/
def is_negated (text signal : String) : Bool :=
  match findSub text.data signal.data with
  | none => false
  | some pos =>
    let prefixWindow := (text.data.take pos).drop (pos - 6)
    let suffixWindow := (text.data.drop (pos + signal.data.length)).take 6
    negPreTokens.any (fun tok => containsSub tok.data prefixWindow) ||
      negSufTokens.any (fun tok => containsSub tok.data suffixWindow)

/-- Embeds `count_signal_matches` (`state/signals.py` lines 143-158): count of
signals present in the text whose first occurrence is not negated. -/
def count_signal_matches (text : String) (signals : List String) : Nat :=
  (signals.filter (fun s => strContains text s && !(is_negated text s))).length

/-- Embeds `StateExtractor._detect_emotion` (`state/extractor.py` lines 128-153).
Note: the source counts raw substring hits
(`sum(1 for signal in signals if signal in thought)`) and never calls
`count_signal_matches`, so no negation guard is applied here. -/
def detect_emotion (thought : String) : EmotionType × Nat :=
  let emotion_scores :=
    (emotionSignals.map
      (fun p => (p.1, (p.2.filter (fun s => strContains thought s)).length))).filter
      (fun p => 0 < p.2)
  match emotion_scores with
  | [] => (.NEUTRAL, 0)
  | e :: es =>
    let max_count := ((e :: es).map (fun p => p.2)).foldl max 0
    let candidates := ((e :: es).filter (fun p => p.2 = max_count)).map (fun p => p.1)
    match candidates with
    | [] => (.NEUTRAL, max_count)
    | [c] => (c, max_count)
    | c :: cs =>
      (cs.foldl (fun best x =>
        if emotionPriority best < emotionPriority x then x else best) c,
        max_count)

/-- C6 (divergence record): the spec says emotion detection applies the
negation guard before counting, but `_detect_emotion` counts raw substring
hits and never calls `count_signal_matches`.  The spec's own examples
("全然嬉しくない" → Neutral because "嬉しい" is conjugated away,
"全然最高！" → Joy) still hold, yet on "最高でもない。" — the input of the
repository's test `test_case06_negation_guard_demo_nai`, which asserts
NEUTRAL — the extractor yields JOY while the negation guard
(`count_signal_matches`) correctly discards the match. -/
theorem emotion_negation_guard_divergence :
    detect_emotion "全然嬉しくない" = (EmotionType.NEUTRAL, 0)
    ∧ detect_emotion "全然最高！" = (EmotionType.JOY, 1)
    ∧ detect_emotion "最高でもない。" = (EmotionType.JOY, 1)
    ∧ count_signal_matches "最高でもない。" joySignals = 0
    ∧ count_signal_matches "全然最高！" joySignals = 1 := by
  refine ⟨?_, ?_, ?_, ?_, ?_⟩ <;> decide

/-- Embeds `SanitizerResult` from `checks/action_sanitizer.py` with its dataclass
defaults. -/
structure SanitizerResult where
  sanitized_text : String
  action_removed : Bool := false
  action_replaced : Bool := false
  blocked_props : List String := []
  original_action : Option String := none
  deriving DecidableEq, Repr

/-- Embeds `ActionSanitizer._extract_action` (`action_sanitizer.py` lines 167-187):
the `（...）` convention first (`^（([^）]+)）`), then the legacy `*...*`
convention (`^\*([^*]+)\*`); both require a nonempty body. -/
def extract_action (text : String) : Option (String × String) :=
  match text.data with
  | '（' :: rest =>
    let body := rest.takeWhile (fun c => c != '）')
    match rest.dropWhile (fun c => c != '）') with
    | '）' :: _ => if body.isEmpty then none else some (String.mk body, "parentheses")
    | _ => none
  | '*' :: rest =>
    let body := rest.takeWhile (fun c => c != '*')
    match rest.dropWhile (fun c => c != '*') with
    | '*' :: _ => if body.isEmpty then none else some (String.mk body, "asterisk")
    | _ => none
  | _ => none

/-- A word character for Python's unicode-aware `\w`, as it behaves on the
strings of this codebase: ASCII alphanumerics, underscore, and non-ASCII
text.  Used only inside scene-item normalization, whose exact behaviour the
proved properties do not depend on. -/
def isPyWordChar (c : Char) : Bool := c.isAlphanum || c = '_' || c.val ≥ 0x80

/-- Python `str.lower()` (ASCII case folding; the Japanese item strings are
unaffected). -/
def toLowerStr (s : String) : String := String.mk (s.data.map Char.toLower)

/-- Embeds `ActionSanitizer._normalize_scene_items` (`action_sanitizer.py` lines
189-205).  The Python set is modelled as a membership-equivalent list:
each item contributes its original, lowercase, symbol-stripped and
lowercase-symbol-stripped forms. -/
def normalize_scene_items (items : List String) : List String :=
  items.flatMap (fun item =>
    let clean := String.mk (item.data.filter (fun c => isPyWordChar c || isPySpace c))
    [item, toLowerStr item, clean, toLowerStr clean])

/-- Embeds `ActionSanitizer._prop_in_scene` (`action_sanitizer.py` lines 225-237). -/
def prop_in_scene (prop : String) (normalized_scene : List String) : Bool :=
  normalized_scene.contains prop ||
  normalized_scene.contains (toLowerStr prop) ||
  normalized_scene.any (fun item =>
    strContains item prop || strContains (toLowerStr item) (toLowerStr prop))

/-- Embeds `ActionSanitizer.PROPS_NG_DICT` (`action_sanitizer.py` lines 46-91) in
source order (Python set iteration order is unspecified; only membership is
observable in the proved properties). -/
def propsNgList : List String :=
  ["コーヒー", "珈琲", "カップ", "グラス", "ワイン", "ビール", "お茶",
    "紅茶", "ジュース", "水",
    "眼鏡", "メガネ", "めがね", "サングラス", "指輪", "ネックレス",
    "イヤリング", "ピアス", "腕時計", "時計",
    "スマホ", "携帯", "パソコン", "PC", "タブレット", "リモコン",
    "タバコ", "煙草", "たばこ", "ライター",
    "本", "雑誌", "新聞", "ペン", "ノート", "バッグ", "傘", "ハンカチ",
    "ティッシュ"]

/-- Embeds `ActionSanitizer._detect_blocked_props` (`action_sanitizer.py` lines
207-223). -/
def detect_blocked_props (action : String) (normalized_scene : List String) :
    List String :=
  propsNgList.filter (fun prop =>
    strContains action prop && !(prop_in_scene prop normalized_scene))

/-- Embeds `ActionSanitizer.FALLBACK_ACTIONS` (`action_sanitizer.py` lines 94-120)
as an association list. -/
def fallbackActionsList : List (String × String) :=
  [("コーヒー", "一息つく"), ("珈琲", "一息つく"), ("お茶", "一息つく"),
    ("紅茶", "一息つく"), ("飲む", "一息つく"),
    ("眼鏡", "目を細める"), ("メガネ", "目を細める"),
    ("めがね", "目を細める"), ("サングラス", "目を細める"),
    ("スマホ", "考え込む"), ("携帯", "考え込む"), ("パソコン", "考え込む"),
    ("PC", "考え込む"), ("タブレット", "考え込む"),
    ("本", "考え込む"), ("雑誌", "考え込む"), ("新聞", "考え込む"),
    ("タバコ", "一息つく"), ("煙草", "一息つく"), ("たばこ", "一息つく")]

/-- Python `FALLBACK_ACTIONS.get(prop)`. -/
def fallbackFor (prop : String) : Option String :=
  (fallbackActionsList.find? (fun p => p.1 == prop)).map (fun p => p.2)

/-- Embeds `ActionSanitizer._get_fallback_action` (`action_sanitizer.py` lines
274-283): the first blocked prop with a specific fallback wins, else the
default `小さく頷く`. -/
def get_fallback_action (blocked_props : List String) : String :=
  match blocked_props.findSome? fallbackFor with
  | some f => f
  | none => "小さく頷く"

/-- Embeds `ActionSanitizer._replace_action` (`action_sanitizer.py` lines 285-303):
substitute the leading action segment by `（fallback）`, converting the
legacy asterisk form to parentheses. -/
def replace_action (text : String) (action_type fallback : String) : String :=
  if action_type = "parentheses" then
    match text.data with
    | '（' :: rest =>
      let body := rest.takeWhile (fun c => c != '）')
      match rest.dropWhile (fun c => c != '）') with
      | '）' :: after =>
        if body.isEmpty then text
        else String.mk (('（' :: fallback.data) ++ ('）' :: after))
      | _ => text
    | _ => text
  else
    match text.data with
    | '*' :: rest =>
      let body := rest.takeWhile (fun c => c != '*')
      match rest.dropWhile (fun c => c != '*') with
      | '*' :: after =>
        if body.isEmpty then text
        else String.mk (('（' :: fallback.data) ++ ('）' :: after))
      | _ => text
    | _ => text

/-- Embeds `ActionSanitizer._remove_action` (`action_sanitizer.py` lines 305-310):
drop the leading action segment and following whitespace. -/
def remove_action (text : String) (action_type : String) : String :=
  if action_type = "parentheses" then
    match text.data with
    | '（' :: rest =>
      let body := rest.takeWhile (fun c => c != '）')
      match rest.dropWhile (fun c => c != '）') with
      | '）' :: after =>
        if body.isEmpty then text else String.mk (after.dropWhile isPySpace)
      | _ => text
    | _ => text
  else
    match text.data with
    | '*' :: rest =>
      let body := rest.takeWhile (fun c => c != '*')
      match rest.dropWhile (fun c => c != '*') with
      | '*' :: after =>
        if body.isEmpty then text else String.mk (after.dropWhile isPySpace)
      | _ => text
    | _ => text

/-- Embeds `ActionSanitizer._handle_blocked_action` (`action_sanitizer.py` lines
239-272): replace when the fallback lookup is truthy, remove otherwise. -/
def handle_blocked_action (output_text action action_type : String)
    (blocked_props : List String) : SanitizerResult :=
  let fallback := get_fallback_action blocked_props
  if fallback ≠ "" then
    { sanitized_text := replace_action output_text action_type fallback
      action_replaced := true
      blocked_props := blocked_props
      original_action := some action }
  else
    { sanitized_text := remove_action output_text action_type
      action_removed := true
      blocked_props := blocked_props
      original_action := some action }

/-- Embeds `ActionSanitizer.sanitize` (`action_sanitizer.py` lines 125-165). -/
def sanitize (output_text : String) (scene_items : List String) :
    SanitizerResult :=
  if output_text = "" then { sanitized_text := "" }
  else
    let normalized_scene := normalize_scene_items scene_items
    match extract_action output_text with
    | none => { sanitized_text := output_text }
    | some (action, action_type) =>
      let blocked := detect_blocked_props action normalized_scene
      if blocked.isEmpty then
        { sanitized_text := output_text, original_action := some action }
      else
        handle_blocked_action output_text action action_type blocked

/-- Every specific fallback action string is nonempty (helper for C10). -/
lemma fallbackFor_ne_empty (prop f : String) (h : fallbackFor prop = some f) :
    f ≠ "" := by
  have hall : ∀ p ∈ fallbackActionsList, p.2 ≠ "" := by decide
  unfold fallbackFor at h
  cases hfind : fallbackActionsList.find? (fun p => p.1 == prop) with
  | none => rw [hfind] at h; simp at h
  | some pair =>
    rw [hfind] at h
    simp at h
    have hmem := List.mem_of_find?_eq_some hfind
    subst h
    exact hall pair hmem

/-- The fallback lookup is always truthy (helper for C10). -/
lemma get_fallback_action_ne_empty (blocked : List String) :
    get_fallback_action blocked ≠ "" := by
  unfold get_fallback_action
  cases hfs : blocked.findSome? fallbackFor with
  | none => decide
  | some f =>
    obtain ⟨a, _, hfa⟩ := List.exists_of_findSome?_eq_some hfs
    exact fallbackFor_ne_empty a f hfa

/-- C10: `sanitize` never returns `action_removed = true` — the fallback
lookup always yields a nonempty action (a per-prop fallback or the default
`小さく頷く`), so a blocked action segment is always replaced and the
removal branch is unreachable — and whenever nothing was replaced (no
action segment, empty input, or no blocked prop) the text is returned
unchanged. -/
theorem sanitize_never_removes (output_text : String)
    (scene_items : List String) :
    (sanitize output_text scene_items).action_removed = false
    ∧ (∀ blocked : List String, get_fallback_action blocked ≠ "")
    ∧ ((sanitize output_text scene_items).action_replaced = false →
        (sanitize output_text scene_items).sanitized_text = output_text) := by
  refine ⟨?_, fun blocked => get_fallback_action_ne_empty blocked, ?_⟩
  · unfold sanitize
    by_cases h0 : output_text = ""
    · simp [h0]
    · simp only [h0, if_false, ite_false]
      cases hex : extract_action output_text with
      | none => rfl
      | some p =>
        obtain ⟨action, action_type⟩ := p
        by_cases hb :
            (detect_blocked_props action
              (normalize_scene_items scene_items)).isEmpty
        · simp [hb]
        · simp only [hb, if_false, ite_false]
          simp [handle_blocked_action,
            get_fallback_action_ne_empty
              (detect_blocked_props action (normalize_scene_items scene_items))]
  · intro hrep
    unfold sanitize at hrep ⊢
    by_cases h0 : output_text = ""
    · simp [h0]
    · simp only [h0, if_false, ite_false] at hrep ⊢
      cases hex : extract_action output_text with
      | none => rfl
      | some p =>
        obtain ⟨action, action_type⟩ := p
        rw [hex] at hrep
        by_cases hb :
            (detect_blocked_props action
              (normalize_scene_items scene_items)).isEmpty
        · simp [hb]
        · simp only [hb, if_false, ite_false] at hrep ⊢
          exfalso
          apply absurd hrep
          simp [handle_blocked_action,
            get_fallback_action_ne_empty
              (detect_blocked_props action (normalize_scene_items scene_items))]

/-- Witness for C10: a blocked-prop action is replaced (never removed), and
an action-free text passes through unchanged. -/
theorem sanitize_never_removes_witness :
    (sanitize "（コーヒーを飲む）「どうぞ」" []).action_removed = false
    ∧ (sanitize "こんにちは" []).sanitized_text = "こんにちは" :=
  ⟨(sanitize_never_removes "（コーヒーを飲む）「どうぞ」" []).1,
    (sanitize_never_removes "こんにちは" []).2.2 (by decide)⟩

/-- Embeds `MAX_FACT_LENGTH` from `rag/fact_card.py`. -/
def MAX_FACT_LENGTH : Nat := 50

/-- Embeds `MAX_FACT_COUNT` from `rag/fact_card.py`. -/
def MAX_FACT_COUNT : Nat := 3

/-- Embeds `FactCard` from `rag/fact_card.py` with its dataclass defaults. -/
structure FactCard where
  content : String
  source : String
  priority : Int := 4
  confidence : ℚ := 1
  deriving DecidableEq, Repr

/-- Embeds `FactCard.__post_init__` (`fact_card.py` lines 33-45): construction
fails loudly when the content exceeds 50 characters, the priority is
outside 1-4, or the confidence is outside [0,1]. -/
def mk_fact_card (content source : String) (priority : Int)
    (confidence : ℚ) : Except String FactCard :=
  if MAX_FACT_LENGTH < content.length then
    .error "Fact content exceeds 50 chars"
  else if ¬(1 ≤ priority ∧ priority ≤ 4) then
    .error "Priority must be 1-4"
  else if ¬((0 : ℚ) ≤ confidence ∧ confidence ≤ 1) then
    .error "Confidence must be 0.0-1.0"
  else
    .ok { content := content, source := source, priority := priority,
          confidence := confidence }

/-- Embeds `TAG_MAPPING` from `rag/rag_manager.py` lines 17-24, in dict order. -/
def tagMapping : List (String × String) :=
  [("使わない", "STYLE"), ("呼ぶ", "REL"), ("話し方", "STYLE"),
    ("Scene", "SCENE"), ("存在しない", "SCENE"), ("話題", "SCENE")]

/-- Embeds `RAGManager._get_fact_tag` (`rag_manager.py` lines 156-161): first
matching pattern wins, default STYLE. -/
def get_fact_tag (f : FactCard) : String :=
  match tagMapping.find? (fun p => strContains f.content p.1) with
  | some p => p.2
  | none => "STYLE"

/-- Embeds `RAGManager._get_fact_id` (`rag_manager.py` lines 163-166).  The source
keys on `f"{source}:{hash(content)}"`; the hash is modelled by the content
itself, which identifies the same source+content pairs. -/
def get_fact_id (f : FactCard) : String := f.source ++ ":" ++ f.content

/-- Embeds `RAGManager.DEFAULT_MAX_PER_TAG.get(tag, 1)` (`rag_manager.py` line 40):
every entry is 1 and so is the default. -/
def defaultMaxPerTag (tag : String) : Nat :=
  if tag = "SCENE" then 1 else if tag = "REL" then 1
  else if tag = "STYLE" then 1 else 1

/-- The selection loop of `RAGManager._select_with_limits` (`rag_manager.py`
lines 168-228), with the loop state (selected facts, per-tag counts, seen
contents of this search, session-wide seen fact ids) passed explicitly. -/
def select_go (maxCount : Nat) (forceScene forceStyle dedupe forceAll : Bool) :
    List FactCard → List FactCard → (String → Nat) → List String →
      List String → List FactCard
  | [], selected, _, _, _ => selected
  | f :: rest, selected, tc, sc, sf =>
    if maxCount ≤ selected.length then selected
    else if defaultMaxPerTag (get_fact_tag f) ≤ tc (get_fact_tag f) then
      select_go maxCount forceScene forceStyle dedupe forceAll rest selected tc sc sf
    else if f.content ∈ sc then
      select_go maxCount forceScene forceStyle dedupe forceAll rest selected tc sc sf
    else if dedupe ∧ ¬forceAll ∧ get_fact_id f ∈ sf ∧
        ¬((get_fact_tag f = "SCENE" ∧ forceScene)
          ∨ (get_fact_tag f = "STYLE" ∧ forceStyle)) then
      select_go maxCount forceScene forceStyle dedupe forceAll rest selected tc sc sf
    else
      select_go maxCount forceScene forceStyle dedupe forceAll rest
        (selected ++ [f])
        (fun t => if t = get_fact_tag f then tc (get_fact_tag f) + 1 else tc t)
        (f.content :: sc) (get_fact_id f :: sf)

/-- Embeds `RAGManager._select_with_limits` (`rag_manager.py` lines 168-228):
`speaker_seen` is `self._seen_facts.get(speaker, set())`, and the force
flags come from the triggers detected by `search` (lines 124-136, 187-188). -/
def select_with_limits (facts : List FactCard) (speaker_seen : List String)
    (triggers : List String) (dedupe forceAll : Bool) (maxCount : Nat) :
    List FactCard :=
  select_go maxCount (triggers.contains "blocked_props")
    (triggers.contains "prohibited_terms") dedupe forceAll facts []
    (fun _ => 0) [] speaker_seen

/-- The number of selected facts carrying a given tag. -/
def countTagIn (sel : List FactCard) (tag : String) : Nat :=
  (sel.filter (fun g => get_fact_tag g = tag)).length

lemma defaultMaxPerTag_eq_one (t : String) : defaultMaxPerTag t = 1 := by
  unfold defaultMaxPerTag
  split_ifs <;> rfl

lemma countTagIn_append (sel : List FactCard) (f : FactCard) (t : String) :
    countTagIn (sel ++ [f]) t =
      countTagIn sel t + (if get_fact_tag f = t then 1 else 0) := by
  simp only [countTagIn, List.filter_append, List.length_append]
  congr 1
  by_cases h : get_fact_tag f = t <;> simp [h]

/-- The selection loop never exceeds the requested maximum (helper for C4). -/
lemma select_go_length (maxCount : Nat) (fs fS d fA : Bool)
    (facts : List FactCard) :
    ∀ selected tc sc sf, selected.length ≤ maxCount →
      (select_go maxCount fs fS d fA facts selected tc sc sf).length ≤
        maxCount := by
  induction facts with
  | nil =>
    intro selected tc sc sf h
    simpa [select_go] using h
  | cons f rest ih =>
    intro selected tc sc sf h
    unfold select_go
    split_ifs with h1 h2 h3 h4
    · exact h
    · exact ih _ _ _ _ h
    · exact ih _ _ _ _ h
    · exact ih _ _ _ _ h
    · apply ih
      simp only [List.length_append, List.length_singleton]
      omega

/-- The selection loop keeps at most one fact per tag (helper for C4). -/
lemma select_go_tags (maxCount : Nat) (fs fS d fA : Bool)
    (facts : List FactCard) :
    ∀ selected tc sc sf,
      (∀ t, countTagIn selected t = tc t) → (∀ t, tc t ≤ 1) →
      ∀ t, countTagIn
        (select_go maxCount fs fS d fA facts selected tc sc sf) t ≤ 1 := by
  induction facts with
  | nil =>
    intro selected tc sc sf hinv hbound t
    unfold select_go
    rw [hinv t]
    exact hbound t
  | cons f rest ih =>
    intro selected tc sc sf hinv hbound t
    unfold select_go
    split_ifs with h1 h2 h3 h4
    · rw [hinv t]; exact hbound t
    · exact ih _ _ _ _ hinv hbound t
    · exact ih _ _ _ _ hinv hbound t
    · exact ih _ _ _ _ hinv hbound t
    · apply ih
      · intro t'
        rw [countTagIn_append, hinv t']
        by_cases ht : t' = get_fact_tag f
        · simp [ht]
        · have : ¬(get_fact_tag f = t') := fun hc => ht hc.symm
          simp [ht, this]
      · intro t'
        rw [defaultMaxPerTag_eq_one] at h2
        by_cases ht : t' = get_fact_tag f
        · subst ht
          rw [if_pos rfl]
          omega
        · rw [if_neg ht]
          exact hbound t'

/-- The selection loop never selects two facts with identical content
(helper for C4). -/
lemma select_go_distinct (maxCount : Nat) (fs fS d fA : Bool)
    (facts : List FactCard) :
    ∀ selected tc sc sf,
      (∀ g ∈ selected, g.content ∈ sc) →
      List.Pairwise (fun a b => a.content ≠ b.content) selected →
      List.Pairwise (fun a b => a.content ≠ b.content)
        (select_go maxCount fs fS d fA facts selected tc sc sf) := by
  induction facts with
  | nil =>
    intro selected tc sc sf hsub hp
    simpa [select_go] using hp
  | cons f rest ih =>
    intro selected tc sc sf hsub hp
    unfold select_go
    split_ifs with h1 h2 h3 h4
    · exact hp
    · exact ih _ _ _ _ hsub hp
    · exact ih _ _ _ _ hsub hp
    · exact ih _ _ _ _ hsub hp
    · apply ih
      · intro g hg
        rcases List.mem_append.mp hg with hg | hg
        · exact List.mem_cons_of_mem _ (hsub g hg)
        · simp only [List.mem_singleton] at hg
          subst hg
          exact List.mem_cons_self _ _
      · rw [List.pairwise_append]
        refine ⟨hp, List.pairwise_singleton _ _, ?_⟩
        intro a ha b hb
        simp only [List.mem_singleton] at hb
        subst hb
        intro hcontra
        exact h3 (hcontra ▸ hsub a ha)

/-- Everything the selection loop returns came from its input (helper for
C4). -/
lemma select_go_mem (maxCount : Nat) (fs fS d fA : Bool)
    (facts : List FactCard) :
    ∀ selected tc sc sf g,
      g ∈ select_go maxCount fs fS d fA facts selected tc sc sf →
      g ∈ selected ∨ g ∈ facts := by
  induction facts with
  | nil =>
    intro selected tc sc sf g hg
    rw [select_go] at hg
    exact Or.inl hg
  | cons f rest ih =>
    intro selected tc sc sf g hg
    unfold select_go at hg
    split_ifs at hg with h1 h2 h3 h4
    · exact Or.inl hg
    · rcases ih _ _ _ _ _ hg with h | h
      · exact Or.inl h
      · exact Or.inr (List.mem_cons_of_mem _ h)
    · rcases ih _ _ _ _ _ hg with h | h
      · exact Or.inl h
      · exact Or.inr (List.mem_cons_of_mem _ h)
    · rcases ih _ _ _ _ _ hg with h | h
      · exact Or.inl h
      · exact Or.inr (List.mem_cons_of_mem _ h)
    · rcases ih _ _ _ _ _ hg with h | h
      · rcases List.mem_append.mp h with h | h
        · exact Or.inl h
        · simp only [List.mem_singleton] at h
          subst h
          exact Or.inr (List.mem_cons_self _ _)
      · exact Or.inr (List.mem_cons_of_mem _ h)

/-- C4: for every list of candidate facts (hence every session history) and
every search-call state, the fact selection returns at most 3 facts, at
most one per tag (SCENE, STYLE and REL are each capped at 1), no two facts
with literally identical content, and — given that each constructed
`FactCard` is validated to at most 50 characters — no content string
exceeding 50 characters; and `FactCard` construction indeed rejects longer
contents. -/
theorem rag_selection_invariants (facts : List FactCard)
    (speaker_seen triggers : List String) (dedupe forceAll : Bool)
    (hlen : ∀ f ∈ facts, f.content.length ≤ 50) :
    (select_with_limits facts speaker_seen triggers dedupe forceAll 3).length ≤ 3
    ∧ (∀ tag, countTagIn
        (select_with_limits facts speaker_seen triggers dedupe forceAll 3) tag ≤ 1)
    ∧ List.Pairwise (fun a b => a.content ≠ b.content)
        (select_with_limits facts speaker_seen triggers dedupe forceAll 3)
    ∧ (∀ f ∈ select_with_limits facts speaker_seen triggers dedupe forceAll 3,
        f.content.length ≤ 50)
    ∧ (∀ c s : String, ∀ p : Int, ∀ cf : ℚ, ∀ fc : FactCard,
        mk_fact_card c s p cf = .ok fc → fc.content.length ≤ 50) := by
  refine ⟨?_, ?_, ?_, ?_, ?_⟩
  · exact select_go_length 3 _ _ _ _ facts [] _ [] speaker_seen (by simp)
  · intro tag
    exact select_go_tags 3 _ _ _ _ facts [] _ [] speaker_seen
      (fun t => rfl) (fun t => Nat.zero_le 1) tag
  · exact select_go_distinct 3 _ _ _ _ facts [] _ [] speaker_seen
      (by simp) List.Pairwise.nil
  · intro f hf
    rcases select_go_mem 3 _ _ _ _ facts [] _ [] speaker_seen f hf with h | h
    · simp at h
    · exact hlen f h
  · intro c s p cf fc h
    unfold mk_fact_card at h
    split_ifs at h with h1 h2 h3
    simp at h
    subst h
    exact Nat.le_of_not_lt h1

/-- Two concrete fact cards for the C4 witness (the second repeats the
first's content). -/
def witFactA : FactCard :=
  { content := "あゆは「やなちゃん」を使わない", source := "persona",
    priority := 1, confidence := 1 }

def witFactB : FactCard :=
  { content := "あゆは「やなちゃん」を使わない", source := "session",
    priority := 2, confidence := 1 }

/-- Witness for C4: on a concrete candidate list the selection obeys the
cap, the per-tag limit and the 50-character bound. -/
theorem rag_selection_invariants_witness :
    (select_with_limits [witFactA, witFactB] [] [] true false 3).length ≤ 3
    ∧ (∀ f ∈ select_with_limits [witFactA, witFactB] [] [] true false 3,
        f.content.length ≤ 50) :=
  ⟨(rag_selection_invariants [witFactA, witFactB] [] [] true false
      (by decide)).1,
    (rag_selection_invariants [witFactA, witFactB] [] [] true false
      (by decide)).2.2.2.1⟩
